import Mathlib

/-!
Verification of the SIMGuard backend (backend/main.py): a shallow embedding
of its in-memory state store, REST command handlers, websocket connection
manager and background simulator, with theorems settling the specification
claims.  Nondeterministic inputs of the Python code (uuid4 ids, wall-clock
timestamps, random integers and random choices) are passed as explicit
parameters to each embedded operation.
-/

namespace SimGuard

/-- One entry of `state["sims"]`: `{"id": ..., "number": ..., "locked": ..., "last": ...}`. -/
structure SimRecord where
  id : String
  number : String
  locked : Bool
  last : String
deriving DecidableEq

/-- One entry of `state["registered"]`. -/
structure RegRecord where
  id : String
  number : String
  relation : String
  risk : String
deriving DecidableEq

/-- One entry of `state["alerts"]`, as built by `add_alert`. -/
structure AlertEntry where
  id : String
  ts : String
  text : String
  level : String
deriving DecidableEq

/-- One entry of `state["activity"]`, as built by `add_log`. -/
structure ActivityEntry where
  id : String
  ts : String
  text : String
deriving DecidableEq

/-- The global `state` dict: four collections. -/
structure AppState where
  sims : List SimRecord
  registered : List RegRecord
  alerts : List AlertEntry
  activity : List ActivityEntry
deriving DecidableEq

/-- The initial `state` literal of main.py.  The single seeded alert's uuid and
timestamp are runtime values, passed as parameters. -/
def initial_state (aid ats : String) : AppState :=
  { sims :=
      [ { id := "sim-0825550101", number := "082 555 0101", locked := true,
          last := "No issues in 12h" },
        { id := "sim-0825550102", number := "082 555 0102", locked := false,
          last := "Unlocked by user 2h ago" },
        { id := "sim-0812227788", number := "081 222 7788", locked := true,
          last := "Auto-locked on risk spike" } ],
    registered :=
      [ { id := "reg-0601239999", number := "060 123 9999", relation := "Unknown", risk := "high" },
        { id := "reg-0724001100", number := "072 400 1100", relation := "Old device", risk := "medium" },
        { id := "reg-0825550102", number := "082 555 0102", relation := "Primary", risk := "low" } ],
    alerts :=
      [ { id := aid, ts := ats, text := "System ready. Monitoring enabled.", level := "info" } ],
    activity := [] }

/-- Embedding of `add_log(text)`: build an activity entry (fresh uuid `i`, timestamp `t`),
insert it at index 0 and truncate the activity log to its first 200 entries. -/
def add_log (i t text : String) (s : AppState) : AppState :=
  { s with activity := (({ id := i, ts := t, text := text } : ActivityEntry) :: s.activity).take 200 }

/-- Embedding of `add_alert(text, level)`: build an alert entry (fresh uuid `i`, timestamp `t`),
insert it at index 0, truncate the alert log to 200 entries, and return the entry. -/
def add_alert (i t text level : String) (s : AppState) : AlertEntry × AppState :=
  let entry : AlertEntry := { id := i, ts := t, text := text, level := level }
  (entry, { s with alerts := (entry :: s.alerts).take 200 })

/-- Embedding of `find_sim(sim_id)`: linear scan of `state["sims"]`, first match or None. -/
def find_sim (sim_id : String) (s : AppState) : Option SimRecord :=
  s.sims.find? (fun sim => sim.id == sim_id)

/-- In Python the dict returned by `find_sim` is mutated in place, which updates
the first matching element of `state["sims"]`; this applies `f` to that element. -/
def updateSim (sim_id : String) (f : SimRecord → SimRecord) : List SimRecord → List SimRecord
  | [] => []
  | sim :: rest =>
    if sim.id == sim_id then f sim :: rest else sim :: updateSim sim_id f rest

/-- Messages passed to `manager.broadcast` or sent on an individual socket:
the `{type, payload}` envelopes of main.py. -/
inductive Msg where
  | alertMsg (payload : AlertEntry)
  | stateMsg (sims : List SimRecord) (registered : List RegRecord)
  | initMsg (payload : AppState)
deriving DecidableEq

/-- Embedding of `ConnectionManager.broadcast`: iterate over the active list, attempt
`send_json` on each subscriber, keep in `living` the ones whose send did not
raise, ignore the exceptions of the others, and replace `self.active` with
`living`.  The send outcome (`ok ws = true` iff `send_json` returns without
raising) is a parameter.  The returned list is the new `self.active`; a
subscriber received the message iff its send succeeded, i.e. iff it is in the
returned list.  The function is total: no exception propagates to the caller. -/
def broadcast {α : Type} (ok : α → Bool) : List α → List α
  | [] => []
  | ws :: rest => if ok ws then ws :: broadcast ok rest else broadcast ok rest

/-- The `Action` request model: `{sim_id, action}`. -/
structure Action where
  sim_id : String
  action : String
deriving DecidableEq

/-- The `RecoveryRequest` model: `{sim_id, step}`. -/
structure RecoveryRequest where
  sim_id : String
  step : String
deriving DecidableEq

/-- The JSON body returned by the `/action` endpoint. -/
inductive ActionResult where
  | notFound
  | unknownAction
  | ok (status : String) (sim : SimRecord)
deriving DecidableEq

/-- Embedding of `take_action` (POST /action): find the sim; if absent return the NotFound
error dict; on "lock"/"unlock" mutate the found sim in place, append one
activity entry and one alert, and broadcast the alert; any other action string
yields the unknown-action error.  `lastTs`, `lt`, `ats` are the three separate
`now_iso()` calls; `li`, `ai` the two fresh uuids.  Also returns the list of
messages handed to `manager.broadcast`. -/
def take_action (a : Action) (lastTs li lt ai ats : String) (s : AppState) :
    ActionResult × AppState × List Msg :=
  match find_sim a.sim_id s with
  | none => (.notFound, s, [])
  | some sim =>
    if a.action == "lock" then
      let sim' : SimRecord := { sim with locked := true, last := "Locked by user • " ++ lastTs }
      let s1 := { s with sims := updateSim a.sim_id (fun _ => sim') s.sims }
      let s2 := add_log li lt (sim'.number ++ " locked via API") s1
      let (alert, s3) := add_alert ai ats ("SIM " ++ sim'.number ++ " locked by user") "info" s2
      (.ok "locked" sim', s3, [Msg.alertMsg alert])
    else if a.action == "unlock" then
      let sim' : SimRecord := { sim with locked := false, last := "Unlocked by user • " ++ lastTs }
      let s1 := { s with sims := updateSim a.sim_id (fun _ => sim') s.sims }
      let s2 := add_log li lt (sim'.number ++ " unlocked via API") s1
      let (alert, s3) := add_alert ai ats ("SIM " ++ sim'.number ++ " unlocked by user") "warn" s2
      (.ok "unlocked" sim', s3, [Msg.alertMsg alert])
    else (.unknownAction, s, [])

/-- The JSON body returned by the `/recovery` endpoint. -/
inductive RecoveryResult where
  | notFound
  | unknownStep
  | ok
deriving DecidableEq

/-- Embedding of `recovery` (POST /recovery): find the sim; if absent return NotFound; the
"freeze" step locks the sim, the four other recognized steps are log-only; each
recognized step appends one alert (severity per step) and one activity entry
and broadcasts the alert; "open-case" uses `ref = random.randint(10000, 99999)`
in both texts.  Any other step string yields the unknown-step error. -/
def recovery (r : RecoveryRequest) (ai ats li lt : String) (ref : Nat) (s : AppState) :
    RecoveryResult × AppState × List Msg :=
  match find_sim r.sim_id s with
  | none => (.notFound, s, [])
  | some sim =>
    if r.step == "freeze" then
      let s1 := { s with sims := updateSim r.sim_id (fun sm => { sm with locked := true }) s.sims }
      let (alert, s2) := add_alert ai ats ("Recovery: SIM " ++ sim.number ++ " frozen via wizard") "info" s1
      let s3 := add_log li lt ("Recovery freeze for " ++ sim.number) s2
      (.ok, s3, [Msg.alertMsg alert])
    else if r.step == "reset" then
      let (alert, s2) := add_alert ai ats ("Recovery: password reset initiated for " ++ sim.number) "warn" s
      let s3 := add_log li lt ("Recovery reset triggered for " ++ sim.number) s2
      (.ok, s3, [Msg.alertMsg alert])
    else if r.step == "notify-bank" then
      let (alert, s2) := add_alert ai ats ("Recovery: bank partners notified for " ++ sim.number) "warn" s
      let s3 := add_log li lt ("Recovery notify-bank for " ++ sim.number) s2
      (.ok, s3, [Msg.alertMsg alert])
    else if r.step == "open-case" then
      let (alert, s2) := add_alert ai ats
        ("Recovery: Telco case opened for " ++ sim.number ++ " (Ref #" ++ toString ref ++ ")") "danger" s
      let s3 := add_log li lt ("Recovery open-case for " ++ sim.number ++ " ref " ++ toString ref) s2
      (.ok, s3, [Msg.alertMsg alert])
    else if r.step == "police" then
      let (alert, s2) := add_alert ai ats ("Recovery: SAPS note generated for " ++ sim.number) "danger" s
      let s3 := add_log li lt ("Recovery police note for " ++ sim.number) s2
      (.ok, s3, [Msg.alertMsg alert])
    else (.unknownStep, s, [])

/-- The JSON body returned by the `/risk/{sim_id}` endpoint. -/
inductive RiskResult where
  | notFound
  | ok (sim_id risk : String)
deriving DecidableEq

/-- Embedding of `random.choices(["Low","Medium","High"], weights=[60,30,10])[0]`, modelled
by a uniform draw `r` reduced mod 100 against the cumulative weights. -/
def riskChoice (r : Nat) : String :=
  if r % 100 < 60 then "Low" else if r % 100 < 90 then "Medium" else "High"

/-- Embedding of `risk_score` (GET /risk/...): NotFound for an absent sim, otherwise a
weighted-random tier.  The handler body performs no assignment to `state`, so
the state passes through unchanged. -/
def risk_score (sim_id : String) (r : Nat) (s : AppState) : RiskResult × AppState :=
  match find_sim sim_id s with
  | none => (.notFound, s)
  | some _ => (.ok sim_id (riskChoice r), s)

/-- Embedding of `get_sims` (GET /sims): the dict
`{"sims": ..., "registered": ..., "alerts": ..., "activity": ...}`. -/
def get_sims (s : AppState) : AppState :=
  { sims := s.sims, registered := s.registered, alerts := s.alerts, activity := s.activity }

/-- The `init` event sent by `websocket_endpoint` right after `connect`:
`{"type": "init", "payload": {"sims": ..., "registered": ..., "alerts": ...,
"activity": ...}}`. -/
def init_event (s : AppState) : Msg :=
  Msg.initMsg { sims := s.sims, registered := s.registered, alerts := s.alerts,
                activity := s.activity }

/-- The swap-attempt branch of one `simulator_loop` iteration
(`choice < 0.6`): `random.choice(state["sims"])` is modelled by the chosen
index `idx`; always log and alert (warn) the swap attempt; if the chosen sim is
unlocked, additionally lock it, log, alert (danger), and broadcast both alerts
in order; if already locked, broadcast only the first alert. -/
def simulator_swap (idx : Nat) (li1 lt1 ai1 ats1 lastTs li2 lt2 ai2 ats2 : String)
    (s : AppState) : AppState × List Msg :=
  match s.sims[idx]? with
  | none => (s, [])
  | some sim =>
    let s1 := add_log li1 lt1 ("Suspicious SIM-swap attempt detected for " ++ sim.number) s
    let (alert, s2) := add_alert ai1 ats1
      ("⚠️ Suspicious SIM-swap attempt detected for " ++ sim.number) "warn" s1
    if sim.locked then
      (s2, [Msg.alertMsg alert])
    else
      let sim' : SimRecord := { sim with locked := true, last := "Auto-locked on risk • " ++ lastTs }
      let s3 := { s2 with sims := s2.sims.set idx sim' }
      let s4 := add_log li2 lt2 (sim.number ++ " auto-locked due to risk") s3
      let (auto_alert, s5) := add_alert ai2 ats2
        ("Auto-locked " ++ sim.number ++ " due to high risk") "danger" s4
      (s5, [Msg.alertMsg alert, Msg.alertMsg auto_alert])

/-- The new-registration branch of one `simulator_loop` iteration
(`choice >= 0.6`): insert a new registered-number record at the head, log,
alert (danger), insert a new pre-locked sim at the head, log, then broadcast
the alert and a `state` event with the updated sims and registered lists. -/
def simulator_register (regId number risk li1 lt1 ai ats simId lastTs li2 lt2 : String)
    (s : AppState) : AppState × List Msg :=
  let entry : RegRecord := { id := regId, number := number, relation := "Unknown", risk := risk }
  let s1 := { s with registered := entry :: s.registered }
  let s2 := add_log li1 lt1 ("New SIM " ++ number ++ " registered to your ID on remote ISP") s1
  let (alert, s3) := add_alert ai ats
    ("New SIM " ++ number ++ " registered to your ID — auto-frozen pending review") "danger" s2
  let new_sim : SimRecord := { id := simId, number := number, locked := true,
                               last := "Auto-locked on registration • " ++ lastTs }
  let s4 := { s3 with sims := new_sim :: s3.sims }
  let s5 := add_log li2 lt2 ("Auto-added and locked " ++ number ++ " to local SIM list") s4
  (s5, [Msg.alertMsg alert, Msg.stateMsg s5.sims s5.registered])

/-- One state-mutating operation of the system, with its nondeterministic
inputs: an `/action` command, a `/recovery` command, or one of the two branches
of a background-generator iteration. -/
inductive Op where
  | act (a : Action) (lastTs li lt ai ats : String)
  | recover (r : RecoveryRequest) (ai ats li lt : String) (ref : Nat)
  | swap (idx : Nat) (li1 lt1 ai1 ats1 lastTs li2 lt2 ai2 ats2 : String)
  | register (regId number risk li1 lt1 ai ats simId lastTs li2 lt2 : String)

/-- The state transition performed by one operation. -/
def applyOp (op : Op) (s : AppState) : AppState :=
  match op with
  | .act a lastTs li lt ai ats => (take_action a lastTs li lt ai ats s).2.1
  | .recover r ai ats li lt ref => (recovery r ai ats li lt ref s).2.1
  | .swap idx li1 lt1 ai1 ats1 lastTs li2 lt2 ai2 ats2 =>
      (simulator_swap idx li1 lt1 ai1 ats1 lastTs li2 lt2 ai2 ats2 s).1
  | .register regId number risk li1 lt1 ai ats simId lastTs li2 lt2 =>
      (simulator_register regId number risk li1 lt1 ai ats simId lastTs li2 lt2 s).1

/-- Run a sequence of operations from a starting state. -/
def runOps (ops : List Op) (s : AppState) : AppState :=
  ops.foldl (fun st op => applyOp op st) s

/-- The bounded-log invariant: both logs hold at most 200 entries. -/
def LogBound (s : AppState) : Prop :=
  s.alerts.length ≤ 200 ∧ s.activity.length ≤ 200

instance (s : AppState) : Decidable (LogBound s) := by
  unfold LogBound; infer_instance

theorem broadcast_eq_filter {α : Type} (ok : α → Bool) (active : List α) :
    broadcast ok active = active.filter ok := by
  induction active with
  | nil => rfl
  | cons ws rest ih =>
    by_cases h : ok ws = true
    · simp [broadcast, h, List.filter, ih]
    · simp only [Bool.not_eq_true] at h
      simp [broadcast, h, List.filter, ih]

/-- C1: if exactly one subscriber `b` in the active list fails on send and all
others succeed, `broadcast` delivers to all the remaining N−1 subscribers
(every element of `l1 ++ l2` is in the post-broadcast active list, having had a
successful send), removes exactly `b`, and — being a total function — raises
nothing to the caller. -/
theorem C1_broadcast_single_failure {α : Type} (ok : α → Bool) (l1 l2 : List α) (b : α)
    (hb : ok b = false) (hrest : ∀ w ∈ l1 ++ l2, ok w = true) :
    broadcast ok (l1 ++ b :: l2) = l1 ++ l2 := by
  rw [broadcast_eq_filter, List.filter_append, List.filter_cons]
  simp only [hb, Bool.false_eq_true, if_false]
  rw [List.filter_eq_self.mpr fun w hw => hrest w (List.mem_append_left _ hw),
    List.filter_eq_self.mpr fun w hw => hrest w (List.mem_append_right _ hw)]

theorem C1_broadcast_single_failure_witness :
    broadcast (fun n : Nat => n != 1) ([0] ++ 1 :: [2, 3]) = [0] ++ [2, 3] :=
  C1_broadcast_single_failure (fun n : Nat => n != 1) [0] [2, 3] 1 (by decide)
    (by decide)

/-- C10: after `broadcast` returns, the active list is exactly the subscribers
that were active at the start whose send succeeded, in their original relative
order (a filter of the original list); every subscriber whose send raised is
absent. -/
theorem C10_broadcast_post_active {α : Type} (ok : α → Bool) (active : List α) :
    broadcast ok active = active.filter ok ∧
      ∀ w, w ∈ broadcast ok active ↔ w ∈ active ∧ ok w = true := by
  refine ⟨broadcast_eq_filter ok active, fun w => ?_⟩
  rw [broadcast_eq_filter, List.mem_filter]

/-- C2: for a sim id absent from the sims collection, each sim-targeted
operation (`/action`, `/recovery`, `/risk`) returns the structured NotFound
error, leaves the state — all four collections — unchanged, and hands nothing
to `manager.broadcast`. -/
theorem C2_absent_sim_is_pure_not_found (sim_id : String) (s : AppState)
    (h : find_sim sim_id s = none) :
    (∀ act lastTs li lt ai ats,
      take_action ⟨sim_id, act⟩ lastTs li lt ai ats s = (.notFound, s, [])) ∧
    (∀ step ai ats li lt ref,
      recovery ⟨sim_id, step⟩ ai ats li lt ref s = (.notFound, s, [])) ∧
    (∀ r, risk_score sim_id r s = (.notFound, s)) := by
  refine ⟨fun act lastTs li lt ai ats => ?_, fun step ai ats li lt ref => ?_, fun r => ?_⟩ <;>
    simp [take_action, recovery, risk_score, h]

theorem C2_absent_sim_is_pure_not_found_witness :
    find_sim "sim-absent" (initial_state "a0" "t0") = none ∧
    take_action ⟨"sim-absent", "bogus"⟩ "n" "l1" "l2" "a1" "a2" (initial_state "a0" "t0")
      = (.notFound, initial_state "a0" "t0", []) ∧
    recovery ⟨"sim-absent", "freeze"⟩ "a1" "a2" "l1" "l2" 12345 (initial_state "a0" "t0")
      = (.notFound, initial_state "a0" "t0", []) ∧
    risk_score "sim-absent" 7 (initial_state "a0" "t0") = (.notFound, initial_state "a0" "t0") :=
  ⟨by decide,
    (C2_absent_sim_is_pure_not_found "sim-absent" (initial_state "a0" "t0") (by decide)).1
      "bogus" "n" "l1" "l2" "a1" "a2",
    (C2_absent_sim_is_pure_not_found "sim-absent" (initial_state "a0" "t0") (by decide)).2.1
      "freeze" "a1" "a2" "l1" "l2" 12345,
    (C2_absent_sim_is_pure_not_found "sim-absent" (initial_state "a0" "t0") (by decide)).2.2 7⟩

/-- C7: the payload of the `init` event sent to a newly connected subscriber
equals the response `get_sims` (GET /sims) computes over the same state: the
two embeddings of "full snapshot" agree. -/
theorem C7_init_snapshot_matches_query (s : AppState) :
    init_event s = Msg.initMsg (get_sims s) := rfl

/-- C9: the NotFound check precedes command validation: an absent sim id
yields NotFound on `/action` and `/recovery` even for an unrecognized
action/step string, and the unknown-action / unknown-step errors occur only
when the sim exists. -/
theorem C9_not_found_precedes_validation (sim_id act step : String) (s : AppState)
    (h : find_sim sim_id s = none) :
    (∀ lastTs li lt ai ats,
      (take_action ⟨sim_id, act⟩ lastTs li lt ai ats s).1 = .notFound) ∧
    (∀ ai ats li lt ref,
      (recovery ⟨sim_id, step⟩ ai ats li lt ref s).1 = .notFound) ∧
    (∀ (a : Action) lastTs li lt ai ats (st : AppState),
      (take_action a lastTs li lt ai ats st).1 = ActionResult.unknownAction →
        find_sim a.sim_id st ≠ none) ∧
    (∀ (r : RecoveryRequest) ai ats li lt ref (st : AppState),
      (recovery r ai ats li lt ref st).1 = RecoveryResult.unknownStep →
        find_sim r.sim_id st ≠ none) := by
  refine ⟨fun lastTs li lt ai ats => by simp [take_action, h],
    fun ai ats li lt ref => by simp [recovery, h],
    fun a lastTs li lt ai ats st hres => ?_,
    fun r ai ats li lt ref st hres => ?_⟩
  · cases hf : find_sim a.sim_id st with
    | none => simp [take_action, hf] at hres
    | some sim => simp [hf]
  · cases hf : find_sim r.sim_id st with
    | none => simp [recovery, hf] at hres
    | some sim => simp [hf]

theorem C9_not_found_precedes_validation_witness :
    find_sim "sim-absent" (initial_state "a0" "t0") = none ∧
    (take_action ⟨"sim-absent", "no-such-action"⟩ "n" "l1" "l2" "a1" "a2"
      (initial_state "a0" "t0")).1 = .notFound ∧
    (recovery ⟨"sim-absent", "no-such-step"⟩ "a1" "a2" "l1" "l2" 11111
      (initial_state "a0" "t0")).1 = .notFound :=
  ⟨by decide,
    (C9_not_found_precedes_validation "sim-absent" "no-such-action" "no-such-step"
      (initial_state "a0" "t0") (by decide)).1 "n" "l1" "l2" "a1" "a2",
    (C9_not_found_precedes_validation "sim-absent" "no-such-action" "no-such-step"
      (initial_state "a0" "t0") (by decide)).2.1 "a1" "a2" "l1" "l2" 11111⟩

/-- Mutating through the alias returned by `find_sim` updates exactly the
first matching record, so a later `find?` sees the updated record (provided
the update keeps the id). -/
theorem find?_updateSim (sim_id : String) (f : SimRecord → SimRecord)
    (sims : List SimRecord) (sim : SimRecord)
    (hfind : sims.find? (fun sm => sm.id == sim_id) = some sim)
    (hid : (f sim).id = sim.id) :
    (updateSim sim_id f sims).find? (fun sm => sm.id == sim_id) = some (f sim) := by
  induction sims with
  | nil => simp at hfind
  | cons a rest ih =>
    rcases hb : a.id == sim_id with _ | _
    · simp only [List.find?_cons, hb] at hfind
      simp only [updateSim, hb, Bool.false_eq_true, if_false, List.find?_cons]
      exact ih hfind
    · simp only [List.find?_cons, hb] at hfind
      obtain rfl : a = sim := by injection hfind
      simp only [updateSim, hb, if_true, List.find?_cons, hid]

/-- Unfolding of `take_action` on a "lock" command for an existing sim. -/
theorem take_action_lock (sim_id lastTs li lt ai ats : String) (s : AppState) (sim : SimRecord)
    (hfind : find_sim sim_id s = some sim) :
    take_action ⟨sim_id, "lock"⟩ lastTs li lt ai ats s =
      (.ok "locked" { sim with locked := true, last := "Locked by user • " ++ lastTs },
       { s with
         sims := updateSim sim_id
           (fun _ => { sim with locked := true, last := "Locked by user • " ++ lastTs }) s.sims,
         alerts := ({ id := ai, ts := ats, text := "SIM " ++ sim.number ++ " locked by user",
                      level := "info" } :: s.alerts).take 200,
         activity := ({ id := li, ts := lt, text := sim.number ++ " locked via API" }
                      :: s.activity).take 200 },
       [Msg.alertMsg { id := ai, ts := ats, text := "SIM " ++ sim.number ++ " locked by user",
                       level := "info" }]) := by
  simp [take_action, hfind, add_log, add_alert]

/-- Unfolding of `take_action` on an "unlock" command for an existing sim. -/
theorem take_action_unlock (sim_id lastTs li lt ai ats : String) (s : AppState) (sim : SimRecord)
    (hfind : find_sim sim_id s = some sim) :
    take_action ⟨sim_id, "unlock"⟩ lastTs li lt ai ats s =
      (.ok "unlocked" { sim with locked := false, last := "Unlocked by user • " ++ lastTs },
       { s with
         sims := updateSim sim_id
           (fun _ => { sim with locked := false, last := "Unlocked by user • " ++ lastTs }) s.sims,
         alerts := ({ id := ai, ts := ats, text := "SIM " ++ sim.number ++ " unlocked by user",
                      level := "warn" } :: s.alerts).take 200,
         activity := ({ id := li, ts := lt, text := sim.number ++ " unlocked via API" }
                      :: s.activity).take 200 },
       [Msg.alertMsg { id := ai, ts := ats, text := "SIM " ++ sim.number ++ " unlocked by user",
                       level := "warn" }]) := by
  simp [take_action, hfind, add_log, add_alert]

/-- Truncating after pushing onto an already-truncated list. -/
theorem take200_cons_take200 {α : Type} (a : α) (l : List α) :
    (a :: l.take 200).take 200 = a :: l.take 199 := by
  rw [show (200 : Nat) = 199 + 1 from rfl, List.take_succ_cons, List.take_take]
  norm_num

/-- C4 counterexample: for `sim-0825550101`, which starts locked, Lock then
Unlock ends with `locked = false`, not the pre-Lock value `true` — the claim
as stated fails on sims that were already locked. -/
theorem C4_counterexample_locked_sim :
    (find_sim "sim-0825550101" (initial_state "a0" "t0")).map SimRecord.locked = some true ∧
    (find_sim "sim-0825550101"
      ((take_action ⟨"sim-0825550101", "unlock"⟩ "n2" "i3" "t3" "i4" "t4"
        ((take_action ⟨"sim-0825550101", "lock"⟩ "n1" "i1" "t1" "i2" "t2"
          (initial_state "a0" "t0")).2.1)).2.1)).map SimRecord.locked = some false := by
  decide

/-- C4 (amended): for every sim id present in the sims collection, Lock then
Unlock leaves the sim's `locked` field false — which equals its pre-Lock value
exactly when the sim was unlocked before — and pushes exactly two new entries
onto the head of the activity log (entries beyond the 200-entry cap drop off
the tail). -/
theorem C4_lock_unlock_amended (sim_id : String) (s : AppState) (sim : SimRecord)
    (hfind : find_sim sim_id s = some sim)
    (lastTs1 li1 lt1 ai1 ats1 lastTs2 li2 lt2 ai2 ats2 : String) :
    ∃ sim2 : SimRecord,
      find_sim sim_id
        ((take_action ⟨sim_id, "unlock"⟩ lastTs2 li2 lt2 ai2 ats2
          ((take_action ⟨sim_id, "lock"⟩ lastTs1 li1 lt1 ai1 ats1 s).2.1)).2.1) = some sim2 ∧
      sim2.locked = false ∧
      (sim.locked = false → sim2.locked = sim.locked) ∧
      ((take_action ⟨sim_id, "unlock"⟩ lastTs2 li2 lt2 ai2 ats2
          ((take_action ⟨sim_id, "lock"⟩ lastTs1 li1 lt1 ai1 ats1 s).2.1)).2.1).activity =
        ({ id := li2, ts := lt2, text := sim.number ++ " unlocked via API" } : ActivityEntry) ::
        ({ id := li1, ts := lt1, text := sim.number ++ " locked via API" } : ActivityEntry) ::
        s.activity.take 198 := by
  have h1 := take_action_lock sim_id lastTs1 li1 lt1 ai1 ats1 s sim hfind
  have hfind1 : find_sim sim_id ((take_action ⟨sim_id, "lock"⟩ lastTs1 li1 lt1 ai1 ats1 s).2.1)
      = some { sim with locked := true, last := "Locked by user • " ++ lastTs1 } := by
    rw [h1]
    exact find?_updateSim sim_id _ s.sims sim hfind rfl
  have h2 := take_action_unlock sim_id lastTs2 li2 lt2 ai2 ats2 _ _ hfind1
  refine ⟨{ sim with locked := false, last := "Unlocked by user • " ++ lastTs2 },
    ?_, rfl, fun h => h.symm, ?_⟩
  · rw [h2]
    exact find?_updateSim sim_id _ _ _ hfind1 rfl
  · rw [h2]
    simp only [h1]
    rw [take200_cons_take200]
    rfl

theorem C4_lock_unlock_amended_witness :
    find_sim "sim-0825550102" (initial_state "a0" "t0")
      = some ⟨"sim-0825550102", "082 555 0102", false, "Unlocked by user 2h ago"⟩ ∧
    (∃ sim2 : SimRecord,
      find_sim "sim-0825550102"
        ((take_action ⟨"sim-0825550102", "unlock"⟩ "n2" "i3" "t3" "i4" "t4"
          ((take_action ⟨"sim-0825550102", "lock"⟩ "n1" "i1" "t1" "i2" "t2"
            (initial_state "a0" "t0")).2.1)).2.1) = some sim2 ∧
      sim2.locked = false ∧
      ((⟨"sim-0825550102", "082 555 0102", false, "Unlocked by user 2h ago"⟩ :
          SimRecord).locked = false → sim2.locked = false) ∧
      ((take_action ⟨"sim-0825550102", "unlock"⟩ "n2" "i3" "t3" "i4" "t4"
          ((take_action ⟨"sim-0825550102", "lock"⟩ "n1" "i1" "t1" "i2" "t2"
            (initial_state "a0" "t0")).2.1)).2.1).activity =
        ({ id := "i3", ts := "t3", text := "082 555 0102 unlocked via API" } : ActivityEntry) ::
        ({ id := "i1", ts := "t1", text := "082 555 0102 locked via API" } : ActivityEntry) ::
        (initial_state "a0" "t0").activity.take 198) :=
  ⟨by decide,
    C4_lock_unlock_amended "sim-0825550102" (initial_state "a0" "t0")
      ⟨"sim-0825550102", "082 555 0102", false, "Unlocked by user 2h ago"⟩ (by decide)
      "n1" "i1" "t1" "i2" "t2" "n2" "i3" "t3" "i4" "t4"⟩

/-- C5: for every existing sim, the "freeze" recovery step sets its `locked`
field to true, the steps "reset", "notify-bank", "open-case" and "police"
leave every SimRecord unchanged; each step appends exactly one alert at the
head of the alert log, with severity info for freeze, warn for reset and
notify-bank, danger for open-case and police; and the open-case alert carries
the reference `ref` drawn from `randint(10000, 99999)`, a 5-digit number. -/
theorem C5_recovery_steps (sim_id : String) (s : AppState) (sim : SimRecord)
    (hfind : find_sim sim_id s = some sim) (ai ats li lt : String) (ref : Nat)
    (href1 : 10000 ≤ ref) (href2 : ref ≤ 99999) :
    ((recovery ⟨sim_id, "freeze"⟩ ai ats li lt ref s).2.1.sims
        = updateSim sim_id (fun sm => { sm with locked := true }) s.sims ∧
      find_sim sim_id (recovery ⟨sim_id, "freeze"⟩ ai ats li lt ref s).2.1
        = some { sim with locked := true }) ∧
    (∀ step, step ∈ (["reset", "notify-bank", "open-case", "police"] : List String) →
      (recovery ⟨sim_id, step⟩ ai ats li lt ref s).2.1.sims = s.sims) ∧
    (∀ step level, (step, level) ∈ ([("freeze", "info"), ("reset", "warn"),
        ("notify-bank", "warn"), ("open-case", "danger"), ("police", "danger")] :
          List (String × String)) →
      ∃ text, (recovery ⟨sim_id, step⟩ ai ats li lt ref s).2.1.alerts
        = ({ id := ai, ts := ats, text := text, level := level } :: s.alerts).take 200) ∧
    ((recovery ⟨sim_id, "open-case"⟩ ai ats li lt ref s).2.1.alerts.head?
        = some { id := ai, ts := ats,
                 text := "Recovery: Telco case opened for " ++ sim.number ++
                   " (Ref #" ++ toString ref ++ ")",
                 level := "danger" } ∧
      (Nat.digits 10 ref).length = 5) := by
  have hsims : (recovery ⟨sim_id, "freeze"⟩ ai ats li lt ref s).2.1.sims
      = updateSim sim_id (fun sm => { sm with locked := true }) s.sims := by
    simp [recovery, hfind, add_alert, add_log]
  refine ⟨⟨hsims, ?_⟩, fun step hstep => ?_, fun step level hsl => ?_, ?_, ?_⟩
  · show ((recovery ⟨sim_id, "freeze"⟩ ai ats li lt ref s).2.1).sims.find?
      (fun sm => sm.id == sim_id) = _
    rw [hsims]
    exact find?_updateSim sim_id _ s.sims sim hfind rfl
  · simp only [List.mem_cons, List.not_mem_nil, or_false] at hstep
    rcases hstep with rfl | rfl | rfl | rfl <;>
      simp [recovery, hfind, add_alert, add_log]
  · simp only [List.mem_cons, List.not_mem_nil, or_false, Prod.mk.injEq] at hsl
    rcases hsl with ⟨rfl, rfl⟩ | ⟨rfl, rfl⟩ | ⟨rfl, rfl⟩ | ⟨rfl, rfl⟩ | ⟨rfl, rfl⟩
    · exact ⟨"Recovery: SIM " ++ sim.number ++ " frozen via wizard",
        by simp [recovery, hfind, add_alert, add_log]⟩
    · exact ⟨"Recovery: password reset initiated for " ++ sim.number,
        by simp [recovery, hfind, add_alert, add_log]⟩
    · exact ⟨"Recovery: bank partners notified for " ++ sim.number,
        by simp [recovery, hfind, add_alert, add_log]⟩
    · exact ⟨"Recovery: Telco case opened for " ++ sim.number ++ " (Ref #" ++ toString ref ++ ")",
        by simp [recovery, hfind, add_alert, add_log]⟩
    · exact ⟨"Recovery: SAPS note generated for " ++ sim.number,
        by simp [recovery, hfind, add_alert, add_log]⟩
  · simp [recovery, hfind, add_alert, add_log]
  · have hlog : Nat.log 10 ref = 4 :=
      Nat.log_eq_of_pow_le_of_lt_pow (by norm_num; omega) (by norm_num; omega)
    rw [Nat.digits_len 10 ref (by norm_num) (by omega), hlog]

theorem C5_recovery_steps_witness :
    find_sim "sim-0825550101" (initial_state "a0" "t0")
      = some ⟨"sim-0825550101", "082 555 0101", true, "No issues in 12h"⟩ ∧
    10000 ≤ 54321 ∧ 54321 ≤ 99999 ∧
    (Nat.digits 10 54321).length = 5 ∧
    (recovery ⟨"sim-0825550101", "open-case"⟩ "a1" "t1" "l1" "t2" 54321
        (initial_state "a0" "t0")).2.1.alerts.head?
      = some { id := "a1", ts := "t1",
               text := "Recovery: Telco case opened for 082 555 0101 (Ref #54321)",
               level := "danger" } := by
  have h := C5_recovery_steps "sim-0825550101" (initial_state "a0" "t0")
    ⟨"sim-0825550101", "082 555 0101", true, "No issues in 12h"⟩ (by decide)
    "a1" "t1" "l1" "t2" 54321 (by norm_num) (by norm_num)
  refine ⟨by decide, by norm_num, by norm_num, h.2.2.2.2, ?_⟩
  rw [h.2.2.2.1]
  decide

/-- C6: one swap-attempt iteration of the background generator: if the chosen
sim is already locked the result is exactly one broadcast alert (warn) and no
`state` event, with the sims collection — in particular the chosen sim's
`locked` field — unchanged; if the chosen sim is unlocked, exactly two alerts
are broadcast (warn then danger, in that order) and the chosen sim's `locked`
field flips to true. -/
theorem C6_simulator_swap_branch (idx : Nat) (s : AppState) (sim : SimRecord)
    (hidx : s.sims[idx]? = some sim) (li1 lt1 ai1 ats1 lastTs li2 lt2 ai2 ats2 : String) :
    (sim.locked = true →
      simulator_swap idx li1 lt1 ai1 ats1 lastTs li2 lt2 ai2 ats2 s =
        ({ s with
             activity := ((⟨li1, lt1,
               "Suspicious SIM-swap attempt detected for " ++ sim.number⟩ :
               ActivityEntry) :: s.activity).take 200,
             alerts := ((⟨ai1, ats1,
               "⚠️ Suspicious SIM-swap attempt detected for " ++ sim.number,
               "warn"⟩ : AlertEntry) :: s.alerts).take 200 },
          [Msg.alertMsg ⟨ai1, ats1,
            "⚠️ Suspicious SIM-swap attempt detected for " ++ sim.number, "warn"⟩])) ∧
    (sim.locked = false →
      (simulator_swap idx li1 lt1 ai1 ats1 lastTs li2 lt2 ai2 ats2 s).2 =
        [Msg.alertMsg ⟨ai1, ats1,
          "⚠️ Suspicious SIM-swap attempt detected for " ++ sim.number, "warn"⟩,
         Msg.alertMsg ⟨ai2, ats2,
          "Auto-locked " ++ sim.number ++ " due to high risk", "danger"⟩] ∧
      ((simulator_swap idx li1 lt1 ai1 ats1 lastTs li2 lt2 ai2 ats2 s).1.sims)[idx]?
        = some { sim with locked := true, last := "Auto-locked on risk • " ++ lastTs }) := by
  constructor
  · intro hlocked
    simp [simulator_swap, hidx, hlocked, add_log, add_alert]
  · intro hunlocked
    have hlt : idx < s.sims.length := (List.getElem?_eq_some.mp hidx).1
    constructor
    · simp [simulator_swap, hidx, hunlocked, add_log, add_alert]
    · simp only [simulator_swap, hidx, hunlocked, add_log, add_alert, Bool.false_eq_true,
        if_false]
      exact List.getElem?_set_eq_of_lt _ hlt

theorem C6_simulator_swap_branch_witness :
    (initial_state "a0" "t0").sims[1]?
      = some ⟨"sim-0825550102", "082 555 0102", false, "Unlocked by user 2h ago"⟩ ∧
    ((⟨"sim-0825550102", "082 555 0102", false, "Unlocked by user 2h ago"⟩ :
        SimRecord).locked = false →
      (simulator_swap 1 "l1" "t1" "a1" "t2" "n" "l2" "t3" "a2" "t4"
          (initial_state "a0" "t0")).2 =
        [Msg.alertMsg ⟨"a1", "t2",
          "⚠️ Suspicious SIM-swap attempt detected for 082 555 0102", "warn"⟩,
         Msg.alertMsg ⟨"a2", "t4",
          "Auto-locked 082 555 0102 due to high risk", "danger"⟩] ∧
      ((simulator_swap 1 "l1" "t1" "a1" "t2" "n" "l2" "t3" "a2" "t4"
          (initial_state "a0" "t0")).1.sims)[1]?
        = some ⟨"sim-0825550102", "082 555 0102", true, "Auto-locked on risk • n"⟩) :=
  ⟨by decide,
    (C6_simulator_swap_branch 1 (initial_state "a0" "t0")
      ⟨"sim-0825550102", "082 555 0102", false, "Unlocked by user 2h ago"⟩ (by decide)
      "l1" "t1" "a1" "t2" "n" "l2" "t3" "a2" "t4").2⟩

theorem take200_length_le {α : Type} (l : List α) : (l.take 200).length ≤ 200 := by
  rw [List.length_take 200 l]
  exact Nat.min_le_left 200 _

/-- Every single operation preserves the 200-entry bound on both logs. -/
theorem logBound_applyOp (op : Op) (s : AppState) (h : LogBound s) :
    LogBound (applyOp op s) := by
  obtain ⟨ha, hc⟩ := h
  cases op with
  | act a lastTs li lt ai ats =>
    show LogBound (take_action a lastTs li lt ai ats s).2.1
    cases hf : find_sim a.sim_id s with
    | none => simp only [take_action, hf]; exact ⟨ha, hc⟩
    | some sim =>
      by_cases h1 : (a.action == "lock") = true
      · simp only [take_action, hf, h1, if_true, add_log, add_alert]
        exact ⟨take200_length_le _, take200_length_le _⟩
      · by_cases h2 : (a.action == "unlock") = true
        · simp only [take_action, hf, h1, h2, if_true, if_false, Bool.false_eq_true]
          simp only [add_log, add_alert]
          exact ⟨take200_length_le _, take200_length_le _⟩
        · simp only [take_action, hf, h1, h2, if_false, Bool.false_eq_true]
          exact ⟨ha, hc⟩
  | recover r ai ats li lt ref =>
    show LogBound (recovery r ai ats li lt ref s).2.1
    cases hf : find_sim r.sim_id s with
    | none => simp only [recovery, hf]; exact ⟨ha, hc⟩
    | some sim =>
      by_cases h1 : (r.step == "freeze") = true
      · simp only [recovery, hf, h1, if_true, add_log, add_alert]
        exact ⟨take200_length_le _, take200_length_le _⟩
      · by_cases h2 : (r.step == "reset") = true
        · simp only [recovery, hf, h1, h2, if_true, if_false, Bool.false_eq_true,
            add_log, add_alert]
          exact ⟨take200_length_le _, take200_length_le _⟩
        · by_cases h3 : (r.step == "notify-bank") = true
          · simp only [recovery, hf, h1, h2, h3, if_true, if_false, Bool.false_eq_true,
              add_log, add_alert]
            exact ⟨take200_length_le _, take200_length_le _⟩
          · by_cases h4 : (r.step == "open-case") = true
            · simp only [recovery, hf, h1, h2, h3, h4, if_true, if_false, Bool.false_eq_true,
                add_log, add_alert]
              exact ⟨take200_length_le _, take200_length_le _⟩
            · by_cases h5 : (r.step == "police") = true
              · simp only [recovery, hf, h1, h2, h3, h4, h5, if_true, if_false,
                  Bool.false_eq_true, add_log, add_alert]
                exact ⟨take200_length_le _, take200_length_le _⟩
              · simp only [recovery, hf, h1, h2, h3, h4, h5, if_false, Bool.false_eq_true]
                exact ⟨ha, hc⟩
  | swap idx li1 lt1 ai1 ats1 lastTs li2 lt2 ai2 ats2 =>
    show LogBound (simulator_swap idx li1 lt1 ai1 ats1 lastTs li2 lt2 ai2 ats2 s).1
    cases hf : s.sims[idx]? with
    | none => simp only [simulator_swap, hf]; exact ⟨ha, hc⟩
    | some sim =>
      by_cases hl : sim.locked = true
      · simp only [simulator_swap, hf, hl, if_true, add_log, add_alert]
        exact ⟨take200_length_le _, take200_length_le _⟩
      · simp only [simulator_swap, hf, hl, if_false, Bool.false_eq_true, add_log, add_alert]
        exact ⟨take200_length_le _, take200_length_le _⟩
  | register regId number risk li1 lt1 ai ats simId lastTs li2 lt2 =>
    show LogBound (simulator_register regId number risk li1 lt1 ai ats simId lastTs li2 lt2 s).1
    simp only [simulator_register, add_log, add_alert]
    exact ⟨take200_length_le _, take200_length_le _⟩

/-- C3: after any sequence of operations starting from a state whose logs
respect the 200-entry bound, both the alert log and the activity log still
hold at most 200 entries; and every newly appended entry — via `add_log` or
`add_alert` — is placed at index 0 of its log (newest-first). -/
theorem C3_bounded_logs_newest_first (ops : List Op) (s : AppState) (h : LogBound s) :
    LogBound (runOps ops s) ∧
    (∀ i t text (st : AppState),
      (add_log i t text st).activity.head? = some { id := i, ts := t, text := text }) ∧
    (∀ i t text level (st : AppState),
      (add_alert i t text level st).2.alerts.head?
        = some { id := i, ts := t, text := text, level := level }) := by
  refine ⟨?_, fun i t text st => rfl, fun i t text level st => rfl⟩
  induction ops generalizing s with
  | nil => exact h
  | cons op rest ih => exact ih (applyOp op s) (logBound_applyOp op s h)

theorem C3_bounded_logs_newest_first_witness :
    LogBound (initial_state "a0" "t0") ∧
    LogBound (runOps
      [Op.act ⟨"sim-0825550101", "lock"⟩ "n" "l1" "l2" "a1" "a2",
       Op.recover ⟨"sim-0825550102", "open-case"⟩ "a3" "a4" "l3" "l4" 33333,
       Op.swap 0 "l5" "l6" "a5" "a6" "n2" "l7" "l8" "a7" "a8",
       Op.register "reg-x" "0712345678" "high" "l9" "la" "ab" "ac" "sim-x" "n3" "lb" "lc"]
      (initial_state "a0" "t0")) :=
  ⟨by decide,
    (C3_bounded_logs_newest_first
      [Op.act ⟨"sim-0825550101", "lock"⟩ "n" "l1" "l2" "a1" "a2",
       Op.recover ⟨"sim-0825550102", "open-case"⟩ "a3" "a4" "l3" "l4" 33333,
       Op.swap 0 "l5" "l6" "a5" "a6" "n2" "l7" "l8" "a7" "a8",
       Op.register "reg-x" "0712345678" "high" "l9" "la" "ab" "ac" "sim-x" "n3" "lb" "lc"]
      (initial_state "a0" "t0") (by decide)).1⟩

end SimGuard
